import Mathlib

/-!
Shallow embedding of the Aqar bot reconciliation core.

Sources embedded here: class AqarBot, method runCheck, from src/index.js;
class Database (getUnitCount, updateUnitCount, upsertProjectMetadata and the
projects table schema of _createTables) from src/src/database.js; and
Scraper.validateProject together with the searchMap construction from
src/src/scraper.js and src/index.js.

Modelling conventions: JavaScript integers are Int, SQL NULL is Option,
timestamps are Nat values supplied explicitly by the caller (standing for
CURRENT_TIMESTAMP at the moment of the write).  REAL-valued columns
(prices, coordinates) are only ever stored and copied, never computed
with, so they are modelled as opaque Int payloads.  Network fetches are
passed in as oracle arguments: an Option input stands for a fetch that may
throw, a function argument stands for the per-resource validation call.
-/

/-- Normalized project record as produced by Scraper.validateProject and
by Scraper normalizeSearchResponse: the shape consumed by
Database.upsertProjectMetadata and by the notifier. -/
structure Project where
  resource_id : Int
  project_name : String
  available_units_count : Int
  min_non_bene_price : Int
  location_lat : Option Int
  location_lon : Option Int
  city : String
  region : String
  developer_name : String
  banner_url : String
  views_count : Int
  project_type : String
  bookable : Bool
deriving DecidableEq, Repr

/-- One row of the projects table (database.js, _createTables): every
column other than the primary key is nullable; available_units_count has
column default 0; last_updated defaults to the write timestamp. -/
structure ProjectRow where
  project_name : Option String := none
  available_units_count : Int := 0
  min_non_bene_price : Option Int := none
  location_lat : Option Int := none
  location_lon : Option Int := none
  developer_name : Option String := none
  banner_url : Option String := none
  views_count : Option Int := none
  project_type : Option String := none
  last_indexed_at : Option Nat := none
  last_watched_at : Option Nat := none
  last_updated : Nat := 0
deriving DecidableEq, Repr

/-- The projects table: association list keyed by resource_id (INTEGER
PRIMARY KEY, hence at most one row per id in every reachable store). -/
abbrev Store := List (Int × ProjectRow)

/-- SELECT ... WHERE resource_id = ? : the unique row with the key. -/
def storeGet : Store → Int → Option ProjectRow
  | [], _ => none
  | (k, r) :: rest, id => if k == id then some r else storeGet rest id

/-- Row replacement underlying an UPSERT: update the row in place when the
key exists, append a fresh row otherwise. -/
def storeSet : Store → Int → ProjectRow → Store
  | [], id, row => [(id, row)]
  | (k, r) :: rest, id, row =>
      if k == id then (k, row) :: rest else (k, r) :: storeSet rest id row

/-- Database.getUnitCount (database.js): the stored available_units_count
of the row, or null when no row exists. -/
def getUnitCount (s : Store) (resourceId : Int) : Option Int :=
  (storeGet s resourceId).map (fun r => r.available_units_count)

/-- Database.updateUnitCount (database.js): INSERT ... ON CONFLICT DO
UPDATE touching only the count and the two timestamps; a fresh row keeps
every metadata column NULL. -/
def updateUnitCount (s : Store) (resourceId : Int) (count : Int) (now : Nat) : Store :=
  match storeGet s resourceId with
  | some row =>
      storeSet s resourceId
        { row with available_units_count := count,
                   last_watched_at := some now, last_updated := now }
  | none =>
      storeSet s resourceId
        { available_units_count := count,
          last_watched_at := some now, last_updated := now }

/-- The SET clause of Database.upsertProjectMetadata: every metadata
column and last_indexed_at are overwritten; available_units_count and
last_watched_at are not mentioned and keep their value. -/
def applyMetadata (p : Project) (now : Nat) (row : ProjectRow) : ProjectRow :=
  { row with
    project_name := some p.project_name,
    min_non_bene_price := some p.min_non_bene_price,
    location_lat := p.location_lat,
    location_lon := p.location_lon,
    developer_name := some p.developer_name,
    banner_url := some p.banner_url,
    views_count := some p.views_count,
    project_type := some p.project_type,
    last_indexed_at := some now,
    last_updated := now }

/-- Database.upsertProjectMetadata (database.js): on a fresh key the
INSERT leaves available_units_count at its column default 0 and
last_watched_at NULL; on conflict only the metadata columns are updated. -/
def upsertProjectMetadata (s : Store) (p : Project) (now : Nat) : Store :=
  match storeGet s p.resource_id with
  | some row => storeSet s p.resource_id (applyMetadata p now row)
  | none => storeSet s p.resource_id (applyMetadata p now {})

/-- Attribute payload of a successful HTTP response inside
Scraper.validateProject (scraper.js); optional fields mirror the
optional-chaining and default-or accesses of the source. -/
structure ValidationAttrs where
  name : String
  bookable : Bool
  available_units_count : Option Int
  min_non_bene_price : Option Int
  location_lat : Option Int
  location_lon : Option Int
  city_name_ar : Option String
  region_name_ar : Option String
  developer_name : Option String
  banner_url : Option String
  views_count : Option Int
  project_type : Option String
deriving DecidableEq, Repr

/-- Outcome of the validation HTTP call: failure covers a thrown error
(network, timeout, malformed body) as well as a response without a data
field; all of these make validateProject return null in the source. -/
inductive LookupOutcome where
  | failure
  | response (attrs : ValidationAttrs)
deriving DecidableEq, Repr

/-- Scraper.validateProject (scraper.js): null on any failure; on a
response, null unless the record is bookable with a positive available
unit count; otherwise the normalized project record. -/
def validateProject (resourceId : Int) : LookupOutcome → Option Project
  | LookupOutcome.failure => none
  | LookupOutcome.response attrs =>
      let isBookable := attrs.bookable
      let availableUnits := attrs.available_units_count.getD 0
      let hasUnits := decide (0 < availableUnits)
      if !isBookable || !hasUnits then none
      else some {
        resource_id := resourceId,
        project_name := attrs.name,
        available_units_count := availableUnits,
        min_non_bene_price := attrs.min_non_bene_price.getD 0,
        location_lat := attrs.location_lat,
        location_lon := attrs.location_lon,
        city := attrs.city_name_ar.getD "",
        region := attrs.region_name_ar.getD "",
        developer_name := attrs.developer_name.getD "",
        banner_url := attrs.banner_url.getD "",
        views_count := attrs.views_count.getD 0,
        project_type := attrs.project_type.getD "",
        bookable := attrs.bookable }

/-- Trigger condition of runCheck (index.js):
(previousCount === null || previousCount === 0) && count > 0. -/
def isTransition (previousCount : Option Int) (count : Int) : Bool :=
  (previousCount == none || previousCount == some 0) && decide (0 < count)

/-- The searchMap lookup where the map was built by forEach and set over
the search results (index.js): the last record with the id wins. -/
def searchMapGet (searchProjects : List Project) (resourceId : Int) : Option Project :=
  searchProjects.foldl
    (fun acc p => if p.resource_id == resourceId then some p else acc) none

/-- The notificationData object built in the trigger branch of runCheck
(index.js). -/
structure NotificationData where
  resource_id : Int
  counterCount : Int
  previousCount : Option Int
  step1_counters : String
  step2_search : Option String
  step3_validation : Option String
  project_name : Option String := none
  finalUnits : Option Int := none
deriving DecidableEq, Repr

/-- Observable actions of a Watcher cycle, in execution order: a
validateProject call, a metadata upsert, a sendNotification dispatch, and
an updateUnitCount write. -/
inductive Event where
  | validateCall (resourceId : Int)
  | writeMetadata (resourceId : Int)
  | dispatch (resourceId : Int)
  | writeCount (resourceId : Int) (count : Int)
deriving DecidableEq, Repr

/-- Result of processing one counter entry inside a cycle. -/
structure StepOut where
  store : Store
  dispatched : List Project
  records : List NotificationData
  events : List Event
deriving DecidableEq, Repr

/-- Body of the counter loop in runCheck (index.js) for one pair of
resource_id and count: read the stored count; on a zero-to-positive
transition run step 2 (search lookup, recorded but never blocking) and
step 3 (validation); on validation failure persist the count and
continue; on success upsert the metadata, dispatch the notification and
then persist the count; with no transition just persist the count. -/
def processCounter (search : List Project) (lookup : Int → LookupOutcome)
    (now : Nat) (s : Store) (resourceId count : Int) : StepOut :=
  let previousCount := getUnitCount s resourceId
  if isTransition previousCount count then
    let nd0 : NotificationData :=
      { resource_id := resourceId, counterCount := count,
        previousCount := previousCount, step1_counters := "passed",
        step2_search := none, step3_validation := none }
    let nd1 :=
      match searchMapGet search resourceId with
      | none => { nd0 with step2_search := some "not_found_proceeding" }
      | some _ => { nd0 with step2_search := some "passed" }
    match validateProject resourceId (lookup resourceId) with
    | none =>
        { store := updateUnitCount s resourceId count now,
          dispatched := [],
          records := [{ nd1 with step3_validation := some "failed" }],
          events := [Event.validateCall resourceId,
                     Event.writeCount resourceId count] }
    | some vp =>
        let nd2 := { nd1 with step3_validation := some "passed", project_name := some vp.project_name, finalUnits := some vp.available_units_count }
        { store := updateUnitCount (upsertProjectMetadata s vp now) resourceId count now,
          dispatched := [vp],
          records := [nd2],
          events := [Event.validateCall resourceId,
                     Event.writeMetadata vp.resource_id,
                     Event.dispatch resourceId,
                     Event.writeCount resourceId count] }
  else
    { store := updateUnitCount s resourceId count now,
      dispatched := [], records := [],
      events := [Event.writeCount resourceId count] }

/-- The counter loop of runCheck over the whole normalized counters list,
threading the store and concatenating the observable outputs. -/
def runLoop (search : List Project) (lookup : Int → LookupOutcome) (now : Nat)
    (s : Store) : List (Int × Int) → StepOut
  | [] => { store := s, dispatched := [], records := [], events := [] }
  | (resourceId, count) :: rest =>
      let step := processCounter search lookup now s resourceId count
      let tail := runLoop search lookup now step.store rest
      { store := tail.store,
        dispatched := step.dispatched ++ tail.dispatched,
        records := step.records ++ tail.records,
        events := step.events ++ tail.events }

/-- Mutable fields of the AqarBot instance that runCheck reads or writes. -/
structure BotState where
  store : Store
  isFirstRun : Bool
  isChecking : Bool
deriving DecidableEq, Repr

/-- Everything observable about one runCheck invocation: the final bot
state, dispatched notifications, pushed notificationData records, the
ordered event trace, and whether the catch block logged an error. -/
structure CycleOut where
  state : BotState
  dispatched : List Project
  records : List NotificationData
  events : List Event
  errorLogged : Bool
deriving DecidableEq, Repr

/-- AqarBot.runCheck (index.js).  The two feed fetches are supplied as
Option arguments, none standing for a thrown fetch error; both fetches
happen before any store write, and a throw lands in the catch block which
logs and leaves the state untouched.  On the first run every counter is
persisted as baseline and the loop is skipped entirely. -/
def runCheck (st : BotState) (countersResult : Option (List (Int × Int)))
    (searchResult : Option (List Project)) (lookup : Int → LookupOutcome)
    (now : Nat) : CycleOut :=
  if st.isChecking then
    { state := st, dispatched := [], records := [], events := [],
      errorLogged := false }
  else
    match countersResult with
    | none =>
        { state := { st with isChecking := false },
          dispatched := [], records := [], events := [], errorLogged := true }
    | some counters =>
        match searchResult with
        | none =>
            { state := { st with isChecking := false },
              dispatched := [], records := [], events := [], errorLogged := true }
        | some search =>
            if st.isFirstRun then
              { state :=
                  { store := counters.foldl
                      (fun acc rc => updateUnitCount acc rc.1 rc.2 now) st.store,
                    isFirstRun := false, isChecking := false },
                dispatched := [], records := [],
                events := counters.map (fun rc => Event.writeCount rc.1 rc.2),
                errorLogged := false }
            else
              let out := runLoop search lookup now st.store counters
              { state := { store := out.store, isFirstRun := false,
                           isChecking := false },
                dispatched := out.dispatched, records := out.records,
                events := out.events, errorLogged := false }

/-- A sequence of scheduled runCheck invocations with successful fetches,
one counters snapshot per cycle; the cycle index doubles as the clock. -/
def runCycles (lookup : Nat → Int → LookupOutcome) (search : Nat → List Project) :
    BotState → List (List (Int × Int)) → Nat → List CycleOut
  | _, [], _ => []
  | st, cs :: rest, i =>
      let out := runCheck st (some cs) (some (search i)) (lookup i) i
      out :: runCycles lookup search out.state rest (i + 1)

/-- Whether, for the given resource, a count write occurs in the event
trace before the first dispatch for that resource (vacuously true when no
dispatch occurs at all). -/
def writeCountPrecedesDispatch (resourceId : Int) : List Event → Bool
  | [] => true
  | Event.dispatch r :: rest =>
      if r == resourceId then false
      else writeCountPrecedesDispatch resourceId rest
  | Event.writeCount r _ :: rest =>
      if r == resourceId then true
      else writeCountPrecedesDispatch resourceId rest
  | _ :: rest => writeCountPrecedesDispatch resourceId rest

/-- Recognizer for count-write events of a given resource. -/
def isWriteCountFor (resourceId : Int) : Event → Bool
  | Event.writeCount r _ => r == resourceId
  | _ => false

/-- A concrete metadata-feed record for resource 1 with a positive
declared unit count, as the search feed would deliver it. -/
def searchRecordOne : Project :=
  { resource_id := 1, project_name := "Demo", available_units_count := 7,
    min_non_bene_price := 100, location_lat := none, location_lon := none,
    city := "", region := "", developer_name := "", banner_url := "",
    views_count := 3, project_type := "lands_moh_land", bookable := true }

/-- A validation response that passes both checks of validateProject. -/
def confirmAttrs : ValidationAttrs :=
  { name := "Demo", bookable := true, available_units_count := some 7,
    min_non_bene_price := some 100, location_lat := none, location_lon := none,
    city_name_ar := none, region_name_ar := none, developer_name := none,
    banner_url := none, views_count := some 3,
    project_type := some "lands_moh_land" }

/-- A store in which resource 1 was last seen with zero units. -/
def staleStore : Store := updateUnitCount [] 1 0 0

/-- A default row as created by the bare column defaults. -/
def demoRow : ProjectRow := {}

/-- The counter snapshot sequence of the no-duplicate-alerts property:
absent, then 5, 5, 0, 5 for resource 1, one snapshot per cycle. -/
def seqCounters : List (List (Int × Int)) :=
  [[], [(1, 5)], [(1, 5)], [(1, 0)], [(1, 5)]]

/-- Process start: empty store, first run still pending. -/
def coldState : BotState := { store := [], isFirstRun := true, isChecking := false }

/-- Notifications dispatched in cycle i of the five-cycle sequence. -/
def dispatchedAt (lookup : Nat → Int → LookupOutcome)
    (search : Nat → List Project) (i : Nat) : List Project :=
  ((runCycles lookup search coldState seqCounters 0).map
    (fun o => o.dispatched)).getD i []

/-! ### Store lemmas -/

theorem storeGet_storeSet_self (s : Store) (id : Int) (row : ProjectRow) :
    storeGet (storeSet s id row) id = some row := by
  induction s with
  | nil => simp [storeSet, storeGet]
  | cons hd tl ih =>
      obtain ⟨k, r⟩ := hd
      by_cases h : k = id
      · subst h; simp [storeSet, storeGet]
      · simp [storeSet, storeGet, h, ih]

theorem storeSet_storeSet_self (s : Store) (id : Int) (r1 r2 : ProjectRow) :
    storeSet (storeSet s id r1) id r2 = storeSet s id r2 := by
  induction s with
  | nil => simp [storeSet]
  | cons hd tl ih =>
      obtain ⟨k, r⟩ := hd
      by_cases h : k = id
      · subst h; simp [storeSet]
      · simp [storeSet, h, ih]

theorem updateUnitCount_of_get_some {s : Store} {id : Int} {row : ProjectRow}
    (h : storeGet s id = some row) (count : Int) (now : Nat) :
    updateUnitCount s id count now
      = storeSet s id { row with available_units_count := count, last_watched_at := some now, last_updated := now } := by
  unfold updateUnitCount; rw [h]

theorem updateUnitCount_of_get_none {s : Store} {id : Int}
    (h : storeGet s id = none) (count : Int) (now : Nat) :
    updateUnitCount s id count now
      = storeSet s id { available_units_count := count, last_watched_at := some now, last_updated := now } := by
  unfold updateUnitCount; rw [h]

theorem getUnitCount_updateUnitCount (s : Store) (id : Int) (c : Int) (t : Nat) :
    getUnitCount (updateUnitCount s id c t) id = some c := by
  unfold updateUnitCount
  cases hg : storeGet s id with
  | some row => simp [getUnitCount, storeGet_storeSet_self]
  | none => simp [getUnitCount, storeGet_storeSet_self]

/-! ### Trigger and validation lemmas -/

theorem isTransition_iff (p : Option Int) (n : Int) :
    isTransition p n = true ↔ (p = none ∨ p = some 0) ∧ 0 < n := by
  cases p with
  | none => simp [isTransition]
  | some k => simp [isTransition]

theorem isTransition_pos_false {k : Int} (hk : k ≠ 0) (n : Int) :
    isTransition (some k) n = false := by
  simp [isTransition, hk]

theorem validateProject_resource_id {resourceId : Int} {o : LookupOutcome}
    {vp : Project} (h : validateProject resourceId o = some vp) :
    vp.resource_id = resourceId := by
  cases o with
  | failure => simp [validateProject] at h
  | response attrs =>
      unfold validateProject at h
      by_cases hb : (!attrs.bookable || !decide (0 < attrs.available_units_count.getD 0)) = true
      · simp [hb] at h
      · simp [hb] at h
        rw [← h]

/-! ### processCounter lemmas -/

theorem processCounter_noTrigger {s : Store} {resourceId count : Int}
    (search : List Project) (lookup : Int → LookupOutcome) (now : Nat)
    (h : isTransition (getUnitCount s resourceId) count = false) :
    processCounter search lookup now s resourceId count
      = { store := updateUnitCount s resourceId count now,
          dispatched := [], records := [],
          events := [Event.writeCount resourceId count] } := by
  simp [processCounter, h]

theorem processCounter_store_count (search : List Project)
    (lookup : Int → LookupOutcome) (now : Nat) (s : Store)
    (resourceId count : Int) :
    getUnitCount ((processCounter search lookup now s resourceId count).store)
      resourceId = some count := by
  unfold processCounter
  by_cases h : isTransition (getUnitCount s resourceId) count
  · cases hs : searchMapGet search resourceId <;>
      cases hv : validateProject resourceId (lookup resourceId) <;>
        simp [h, hs, hv, getUnitCount_updateUnitCount]
  · simp [h, getUnitCount_updateUnitCount]

theorem processCounter_dispatched_len (search : List Project)
    (lookup : Int → LookupOutcome) (now : Nat) (s : Store)
    (resourceId count : Int) :
    (processCounter search lookup now s resourceId count).dispatched.length ≤ 1 := by
  unfold processCounter
  by_cases h : isTransition (getUnitCount s resourceId) count
  · cases hs : searchMapGet search resourceId <;>
      cases hv : validateProject resourceId (lookup resourceId) <;>
        simp [h, hs, hv]
  · simp [h]

theorem runLoop_singleton (search : List Project) (lookup : Int → LookupOutcome)
    (now : Nat) (s : Store) (resourceId count : Int) :
    runLoop search lookup now s [(resourceId, count)]
      = processCounter search lookup now s resourceId count := by
  rcases h : processCounter search lookup now s resourceId count with ⟨a, b, r, e⟩
  simp [runLoop, h]

theorem runCheck_loop (s : Store) (cs : List (Int × Int)) (search : List Project)
    (lookup : Int → LookupOutcome) (now : Nat) :
    runCheck ⟨s, false, false⟩ (some cs) (some search) lookup now
      = { state := ⟨(runLoop search lookup now s cs).store, false, false⟩,
          dispatched := (runLoop search lookup now s cs).dispatched,
          records := (runLoop search lookup now s cs).records,
          events := (runLoop search lookup now s cs).events,
          errorLogged := false } := rfl

theorem processCounter_writeCount_filter (search : List Project)
    (lookup : Int → LookupOutcome) (now : Nat) (s : Store)
    (resourceId count other : Int) :
    (processCounter search lookup now s resourceId count).events.filter
        (isWriteCountFor other)
      = if resourceId == other then [Event.writeCount resourceId count] else [] := by
  by_cases ho : resourceId = other
  · subst ho
    unfold processCounter
    by_cases h : isTransition (getUnitCount s resourceId) count
    · cases hs : searchMapGet search resourceId <;>
        cases hv : validateProject resourceId (lookup resourceId) <;>
          simp [h, hs, hv, isWriteCountFor, List.filter]
    · simp [h, isWriteCountFor, List.filter]
  · have hbe : (resourceId == other) = false := by simp [ho]
    unfold processCounter
    by_cases h : isTransition (getUnitCount s resourceId) count
    · cases hs : searchMapGet search resourceId <;>
        cases hv : validateProject resourceId (lookup resourceId) <;>
          simp [h, hs, hv, isWriteCountFor, List.filter, hbe]
    · simp [h, isWriteCountFor, List.filter, hbe]

theorem runLoop_writeCount_filter (search : List Project)
    (lookup : Int → LookupOutcome) (now : Nat) (other : Int) :
    ∀ (counters : List (Int × Int)) (s : Store),
      (runLoop search lookup now s counters).events.filter (isWriteCountFor other)
        = (counters.filter (fun rc => rc.1 == other)).map
            (fun rc => Event.writeCount rc.1 rc.2) := by
  intro counters
  induction counters with
  | nil => intro s; simp [runLoop]
  | cons hd tl ih =>
      intro s
      obtain ⟨rid, c⟩ := hd
      simp only [runLoop, List.filter_append, ih, List.filter]
      rw [processCounter_writeCount_filter]
      by_cases ho : rid = other
      · subst ho; simp
      · have hbe : (rid == other) = false := by simp [ho]
        simp [hbe]

/-! ### Claim theorems -/

/-- Claim C1: the Trigger Detector classifies a pair as a transition iff
the previous count is absent or zero and the new count is strictly
positive; every other combination is no-change and causes no validation
call and no dispatch for that resource in that cycle, only the count
write. -/
theorem transition_rule (p : Option Int) (n : Int) (search : List Project)
    (lookup : Int → LookupOutcome) (now : Nat) (s : Store)
    (resourceId count : Int) :
    (isTransition p n = true ↔ (p = none ∨ p = some 0) ∧ 0 < n) ∧
    (isTransition (getUnitCount s resourceId) count = false →
      processCounter search lookup now s resourceId count
        = { store := updateUnitCount s resourceId count now,
            dispatched := [], records := [],
            events := [Event.writeCount resourceId count] }) :=
  ⟨isTransition_iff p n, fun h => processCounter_noTrigger search lookup now h⟩

/-- Claim C1 witness: a positive-to-positive pair is no transition, and a
resource stored with count 0 seeing count 0 again gets only its count
written, with no validation call and no dispatch. -/
theorem transition_rule_witness :
    (isTransition (some 4) 9 = true
      ↔ ((some 4 : Option Int) = none ∨ (some 4 : Option Int) = some 0) ∧ (0 : Int) < 9) ∧
    (processCounter [] (fun _ => LookupOutcome.failure) 1 staleStore 1 0
      = { store := updateUnitCount staleStore 1 0 1, dispatched := [],
          records := [], events := [Event.writeCount 1 0] }) := by
  have h := transition_rule (some 4) 9 [] (fun _ => LookupOutcome.failure) 1 staleStore 1 0
  exact ⟨h.1, h.2 (by decide)⟩

/-- Claim C2 counterexample: resource 1 is stored with count 0, the
counter feed reports 5 (so a transition is detected: the validation call
is in the trace), the metadata feed snapshot holds resource 1 with 7
declared units, and the validation lookup fails transiently; the claim
requires a Confirmed verdict with a dispatched notification, but the code
dispatches nothing. -/
theorem lookup_failure_fallback_cex :
    Event.validateCall 1 ∈ (runCheck ⟨staleStore, false, false⟩ (some [(1, 5)])
        (some [searchRecordOne]) (fun _ => LookupOutcome.failure) 1).events ∧
    searchMapGet [searchRecordOne] 1 = some searchRecordOne ∧
    0 < searchRecordOne.available_units_count ∧
    (runCheck ⟨staleStore, false, false⟩ (some [(1, 5)])
        (some [searchRecordOne]) (fun _ => LookupOutcome.failure) 1).dispatched = [] := by
  decide

/-- Claim C2 amended: when the validation lookup yields no validated
record (transient failure and explicit refutation are indistinguishable
to the caller), the detected transition is rejected regardless of the
metadata feed snapshot: nothing is dispatched, no metadata fallback is
used, and only the count is persisted. -/
theorem lookup_failure_rejects (search : List Project)
    (lookup : Int → LookupOutcome) (now : Nat) (s : Store)
    (resourceId count : Int)
    (htr : isTransition (getUnitCount s resourceId) count = true)
    (hv : validateProject resourceId (lookup resourceId) = none) :
    (processCounter search lookup now s resourceId count).dispatched = [] ∧
    (processCounter search lookup now s resourceId count).store
      = updateUnitCount s resourceId count now ∧
    (processCounter search lookup now s resourceId count).events
      = [Event.validateCall resourceId, Event.writeCount resourceId count] := by
  cases hs : searchMapGet search resourceId <;>
    simp [processCounter, htr, hv, hs]

/-- Claim C2 amended, witness: the concrete counterexample scenario ends
with no dispatch and only the count write. -/
theorem lookup_failure_rejects_witness :
    (processCounter [searchRecordOne] (fun _ => LookupOutcome.failure) 1 staleStore 1 5).dispatched = [] ∧
    (processCounter [searchRecordOne] (fun _ => LookupOutcome.failure) 1 staleStore 1 5).store
      = updateUnitCount staleStore 1 5 1 ∧
    (processCounter [searchRecordOne] (fun _ => LookupOutcome.failure) 1 staleStore 1 5).events
      = [Event.validateCall 1, Event.writeCount 1 5] :=
  lookup_failure_rejects [searchRecordOne] (fun _ => LookupOutcome.failure) 1
    staleStore 1 5 (by decide) (by decide)

/-- Claim C3 counterexample: a confirmed transition for resource 1 whose
trace contains a dispatch, yet no count write for resource 1 precedes the
dispatch — the count is not yet committed when the dispatcher runs. -/
theorem dispatch_order_cex :
    Event.dispatch 1 ∈ (runCheck ⟨staleStore, false, false⟩ (some [(1, 5)])
        (some []) (fun _ => LookupOutcome.response confirmAttrs) 1).events ∧
    writeCountPrecedesDispatch 1 ((runCheck ⟨staleStore, false, false⟩ (some [(1, 5)])
        (some []) (fun _ => LookupOutcome.response confirmAttrs) 1).events) = false := by
  decide

/-- Claim C3 amended: a confirmed transition executes detect, verify,
persist-metadata, dispatch, persist-count in that order — the dispatch
precedes the count commit — but the count write follows immediately in
the same per-resource unit, so after the cycle the stored count equals
the new count and no later cycle can re-fire on it. -/
theorem dispatch_then_count_commit (search : List Project)
    (lookup : Int → LookupOutcome) (now : Nat) (s : Store)
    (resourceId count : Int)
    (h : (processCounter search lookup now s resourceId count).dispatched ≠ []) :
    (∃ vp, validateProject resourceId (lookup resourceId) = some vp ∧
      (processCounter search lookup now s resourceId count).events
        = [Event.validateCall resourceId, Event.writeMetadata resourceId,
           Event.dispatch resourceId, Event.writeCount resourceId count]) ∧
    getUnitCount ((processCounter search lookup now s resourceId count).store)
      resourceId = some count ∧
    (∀ c2, isTransition
      (getUnitCount ((processCounter search lookup now s resourceId count).store)
        resourceId) c2 = false) := by
  by_cases htr : isTransition (getUnitCount s resourceId) count
  · cases hv : validateProject resourceId (lookup resourceId) with
    | none =>
        exfalso
        apply h
        cases hs : searchMapGet search resourceId <;>
          simp [processCounter, htr, hv, hs]
    | some vp =>
        have hpos : 0 < count := ((isTransition_iff _ _).1 htr).2
        have hres := validateProject_resource_id hv
        have hstore : getUnitCount
            ((processCounter search lookup now s resourceId count).store)
            resourceId = some count :=
          processCounter_store_count search lookup now s resourceId count
        refine ⟨⟨vp, rfl, ?_⟩, hstore, ?_⟩
        · cases hs : searchMapGet search resourceId <;>
            simp [processCounter, htr, hv, hs, hres]
        · intro c2
          rw [hstore]
          exact isTransition_pos_false (by omega) c2
  · exfalso
    apply h
    have hf : isTransition (getUnitCount s resourceId) count = false := by
      simpa using htr
    simp [processCounter_noTrigger search lookup now hf]

/-- Claim C3 amended, witness: a concrete confirmed transition shows the
exact trace order and the committed count. -/
theorem dispatch_then_count_commit_witness :
    (∃ vp, validateProject 1 (LookupOutcome.response confirmAttrs) = some vp ∧
      (processCounter [] (fun _ => LookupOutcome.response confirmAttrs) 1 staleStore 1 5).events
        = [Event.validateCall 1, Event.writeMetadata 1,
           Event.dispatch 1, Event.writeCount 1 5]) ∧
    getUnitCount ((processCounter [] (fun _ => LookupOutcome.response confirmAttrs) 1 staleStore 1 5).store) 1 = some 5 ∧
    (∀ c2, isTransition
      (getUnitCount ((processCounter [] (fun _ => LookupOutcome.response confirmAttrs) 1 staleStore 1 5).store) 1) c2 = false) :=
  dispatch_then_count_commit [] (fun _ => LookupOutcome.response confirmAttrs) 1
    staleStore 1 5 (by decide)

/-- Claim C4: on the very first cycle after process start every counter
is persisted as baseline and nothing else happens: no validation call, no
dispatch, no record; the first-run flag is cleared. -/
theorem first_run_suppression (st : BotState) (counters : List (Int × Int))
    (search : List Project) (lookup : Int → LookupOutcome) (now : Nat)
    (h1 : st.isChecking = false) (h2 : st.isFirstRun = true) :
    runCheck st (some counters) (some search) lookup now
      = { state := { store := counters.foldl (fun acc rc => updateUnitCount acc rc.1 rc.2 now) st.store, isFirstRun := false, isChecking := false },
          dispatched := [], records := [],
          events := counters.map (fun rc => Event.writeCount rc.1 rc.2),
          errorLogged := false } := by
  simp [runCheck, h1, h2]

/-- Claim C4 witness: a cold store over counts 10, 0, 3 for resources 1,
2, 3 persists all three counts and dispatches nothing. -/
theorem first_run_suppression_witness :
    (runCheck coldState (some [(1, 10), (2, 0), (3, 3)]) (some [])
        (fun _ => LookupOutcome.failure) 0).dispatched = [] ∧
    (runCheck coldState (some [(1, 10), (2, 0), (3, 3)]) (some [])
        (fun _ => LookupOutcome.failure) 0).events
      = [Event.writeCount 1 10, Event.writeCount 2 0, Event.writeCount 3 3] ∧
    getUnitCount (runCheck coldState (some [(1, 10), (2, 0), (3, 3)]) (some [])
        (fun _ => LookupOutcome.failure) 0).state.store 1 = some 10 ∧
    getUnitCount (runCheck coldState (some [(1, 10), (2, 0), (3, 3)]) (some [])
        (fun _ => LookupOutcome.failure) 0).state.store 2 = some 0 ∧
    getUnitCount (runCheck coldState (some [(1, 10), (2, 0), (3, 3)]) (some [])
        (fun _ => LookupOutcome.failure) 0).state.store 3 = some 3 := by
  have h := first_run_suppression coldState [(1, 10), (2, 0), (3, 3)] []
    (fun _ => LookupOutcome.failure) 0 rfl rfl
  rw [h]
  decide

/-- Claim C6: in a non-first-run cycle the stored count of a resource is
written exactly once per occurrence of the resource in the counter
snapshot — the event trace contains exactly the corresponding count-write
events, with the latest feed value, in every branch — and processing a
resource always leaves that latest counter value as its stored count for
the next cycle to compare against. -/
theorem count_replaced_once_per_cycle (search : List Project)
    (lookup : Int → LookupOutcome) (now : Nat) (s : Store)
    (counters : List (Int × Int)) (resourceId count : Int) :
    ((runCheck ⟨s, false, false⟩ (some counters) (some search) lookup now).events.filter
        (isWriteCountFor resourceId)
      = (counters.filter (fun rc => rc.1 == resourceId)).map
          (fun rc => Event.writeCount rc.1 rc.2)) ∧
    getUnitCount ((processCounter search lookup now s resourceId count).store)
      resourceId = some count := by
  constructor
  · rw [runCheck_loop]
    exact runLoop_writeCount_filter search lookup now resourceId counters s
  · exact processCounter_store_count search lookup now s resourceId count

/-- Claim C6 witness: a concrete cycle writes the count of resource 1
exactly once and leaves the latest value stored. -/
theorem count_replaced_once_per_cycle_witness :
    ((runCheck ⟨staleStore, false, false⟩ (some [(1, 4), (2, 2)]) (some [])
        (fun _ => LookupOutcome.failure) 1).events.filter (isWriteCountFor 1)
      = [Event.writeCount 1 4]) ∧
    getUnitCount ((processCounter [] (fun _ => LookupOutcome.failure) 1 staleStore 1 9).store) 1
      = some 9 :=
  count_replaced_once_per_cycle [] (fun _ => LookupOutcome.failure) 1 staleStore
    [(1, 4), (2, 2)] 1 9

/-- Claim C7: for a resource with an existing row, the metadata upsert
rewrites exactly the metadata columns and the index timestamp and leaves
the stored count unchanged, while the count update rewrites only the
count and the timestamps, leaving every previously stored metadata column
in place. -/
theorem metadata_count_isolation (s : Store) (row : ProjectRow) (p : Project)
    (id n : Int) (now : Nat) :
    (storeGet s p.resource_id = some row →
      storeGet (upsertProjectMetadata s p now) p.resource_id
        = some (applyMetadata p now row) ∧
      getUnitCount (upsertProjectMetadata s p now) p.resource_id
        = some row.available_units_count) ∧
    (storeGet s id = some row →
      storeGet (updateUnitCount s id n now) id
        = some { row with available_units_count := n, last_watched_at := some now, last_updated := now }) := by
  constructor
  · intro h
    have hst : upsertProjectMetadata s p now
        = storeSet s p.resource_id (applyMetadata p now row) := by
      unfold upsertProjectMetadata; rw [h]
    constructor
    · rw [hst, storeGet_storeSet_self]
    · rw [hst]
      simp [getUnitCount, storeGet_storeSet_self, applyMetadata]
  · intro h
    rw [updateUnitCount_of_get_some h, storeGet_storeSet_self]

/-- Claim C7 witness: a store holding the default row for resource 1
keeps its count 0 through a metadata upsert, and keeps its metadata
through a count update to 9. -/
theorem metadata_count_isolation_witness :
    (storeGet (upsertProjectMetadata [(1, demoRow)] searchRecordOne 2)
        searchRecordOne.resource_id = some (applyMetadata searchRecordOne 2 demoRow) ∧
      getUnitCount (upsertProjectMetadata [(1, demoRow)] searchRecordOne 2)
        searchRecordOne.resource_id = some demoRow.available_units_count) ∧
    storeGet (updateUnitCount [(1, demoRow)] 1 9 2) 1
      = some { demoRow with available_units_count := 9, last_watched_at := some 2, last_updated := 2 } := by
  have h := metadata_count_isolation [(1, demoRow)] demoRow searchRecordOne 1 9 2
  exact ⟨h.1 (by decide), h.2 (by decide)⟩

/-- Claim C8: updating the unit count is idempotent — an immediate second
identical call collapses to a single call made at the later write time —
and the call succeeds on a missing row, creating a minimal record that
holds the count with every metadata column still NULL. -/
theorem upsertCount_idempotent (s : Store) (id n : Int) (t1 t2 : Nat) :
    updateUnitCount (updateUnitCount s id n t1) id n t2 = updateUnitCount s id n t2 ∧
    (storeGet s id = none →
      storeGet (updateUnitCount s id n t2) id
        = some { available_units_count := n, last_watched_at := some t2, last_updated := t2 }) := by
  constructor
  · cases hg : storeGet s id with
    | some row =>
        rw [updateUnitCount_of_get_some hg n t1,
            updateUnitCount_of_get_some (storeGet_storeSet_self s id _) n t2,
            updateUnitCount_of_get_some hg n t2, storeSet_storeSet_self]
    | none =>
        rw [updateUnitCount_of_get_none hg n t1,
            updateUnitCount_of_get_some (storeGet_storeSet_self s id _) n t2,
            updateUnitCount_of_get_none hg n t2, storeSet_storeSet_self]
  · intro hg
    rw [updateUnitCount_of_get_none hg n t2, storeGet_storeSet_self]

/-- Claim C8 witness: writing count 4 for unknown resource 1 twice equals
writing it once, and the single write creates the minimal record. -/
theorem upsertCount_idempotent_witness :
    updateUnitCount (updateUnitCount [] 1 4 2) 1 4 3 = updateUnitCount [] 1 4 3 ∧
    storeGet (updateUnitCount [] 1 4 3) 1
      = some { available_units_count := 4, last_watched_at := some 3, last_updated := 3 } := by
  have h := upsertCount_idempotent [] 1 4 2 3
  exact ⟨h.1, h.2 rfl⟩

/-- Claim C9: when fetching the counter feed or the metadata feed fails,
the whole cycle aborts with the store and every other state field exactly
as before, nothing dispatched, recorded or written, and the error logged;
the next timer fire starts from the unchanged state. -/
theorem feed_failure_aborts_cycle (st : BotState)
    (searchResult : Option (List Project)) (lookup : Int → LookupOutcome)
    (now : Nat) (counters : List (Int × Int)) (h : st.isChecking = false) :
    runCheck st none searchResult lookup now
      = { state := st, dispatched := [], records := [], events := [], errorLogged := true } ∧
    runCheck st (some counters) none lookup now
      = { state := st, dispatched := [], records := [], events := [], errorLogged := true } := by
  obtain ⟨store, fr, ch⟩ := st
  simp only at h
  subst h
  constructor <;> simp [runCheck]

/-- Claim C9 witness: both failure modes leave the concrete stale state
untouched and log the error. -/
theorem feed_failure_aborts_cycle_witness :
    runCheck ⟨staleStore, false, false⟩ none (some []) (fun _ => LookupOutcome.failure) 3
      = { state := ⟨staleStore, false, false⟩, dispatched := [], records := [],
          events := [], errorLogged := true } ∧
    runCheck ⟨staleStore, false, false⟩ (some [(1, 5)]) none (fun _ => LookupOutcome.failure) 3
      = { state := ⟨staleStore, false, false⟩, dispatched := [], records := [],
          events := [], errorLogged := true } :=
  feed_failure_aborts_cycle ⟨staleStore, false, false⟩ (some [])
    (fun _ => LookupOutcome.failure) 3 [(1, 5)] rfl

/-- Claim C10: a metadata upsert for a resource with no existing row
creates the row with the column-default count 0, so a later getUnitCount
returns 0 rather than null — the indexer collapses absent into 0; the
trigger classifies a stored 0 exactly like an absent record, so the
collapse is invisible to trigger classification. -/
theorem metadata_upsert_defaults_count_zero (s : Store) (p : Project)
    (now : Nat) (h : storeGet s p.resource_id = none) :
    getUnitCount (upsertProjectMetadata s p now) p.resource_id = some 0 ∧
    (∀ c, isTransition (some 0) c = isTransition none c) := by
  constructor
  · have hst : upsertProjectMetadata s p now
        = storeSet s p.resource_id (applyMetadata p now {}) := by
      unfold upsertProjectMetadata; rw [h]
    rw [hst]
    simp [getUnitCount, storeGet_storeSet_self, applyMetadata]
  · intro c
    simp [isTransition]

/-- Claim C10 witness: upserting metadata for resource 1 into the empty
store makes getUnitCount return 0, not null. -/
theorem metadata_upsert_defaults_count_zero_witness :
    getUnitCount (upsertProjectMetadata [] searchRecordOne 5)
      searchRecordOne.resource_id = some 0 ∧
    (∀ c, isTransition (some 0) c = isTransition none c) :=
  metadata_upsert_defaults_count_zero [] searchRecordOne 5 rfl

/-- Claim C5: over the counter snapshot sequence absent, 5, 5, 0, 5 for
resource 1 (index 0 being the suppressed first run), no cycle other than
index 1 and index 4 can dispatch — the count persisted at index 1 blocks
the plateau at index 2 and the zero at index 3 re-arms the trigger — each
of index 1 and index 4 dispatches at most once, and with an
always-confirming validation lookup both of them do dispatch, so at most
two Confirmed verdicts are possible and both are attainable. -/
theorem no_duplicate_alerts :
    (∀ (lookup : Nat → Int → LookupOutcome) (search : Nat → List Project),
      dispatchedAt lookup search 0 = [] ∧
      dispatchedAt lookup search 2 = [] ∧
      dispatchedAt lookup search 3 = [] ∧
      (dispatchedAt lookup search 1).length ≤ 1 ∧
      (dispatchedAt lookup search 4).length ≤ 1) ∧
    (dispatchedAt (fun _ _ => LookupOutcome.response confirmAttrs) (fun _ => []) 1 ≠ [] ∧
     dispatchedAt (fun _ _ => LookupOutcome.response confirmAttrs) (fun _ => []) 4 ≠ []) := by
  constructor
  · intro lookup search
    have h0 : runCheck coldState (some []) (some (search 0)) (lookup 0) 0
        = { state := ⟨[], false, false⟩, dispatched := [], records := [],
            events := [], errorLogged := false } := by
      simp [runCheck, coldState]
    have h2 : runCheck ⟨(processCounter (search 1) (lookup 1) 1 [] 1 5).store, false, false⟩
          (some [(1, 5)]) (some (search 2)) (lookup 2) 2
        = { state := ⟨updateUnitCount (processCounter (search 1) (lookup 1) 1 [] 1 5).store 1 5 2, false, false⟩,
            dispatched := [], records := [], events := [Event.writeCount 1 5],
            errorLogged := false } := by
      have hs1 : getUnitCount ((processCounter (search 1) (lookup 1) 1 [] 1 5).store) 1 = some 5 :=
        processCounter_store_count (search 1) (lookup 1) 1 [] 1 5
      have hnt : isTransition (getUnitCount ((processCounter (search 1) (lookup 1) 1 [] 1 5).store) 1) 5 = false := by
        rw [hs1]; decide
      rw [runCheck_loop, runLoop_singleton, processCounter_noTrigger (search 2) (lookup 2) 2 hnt]
    have h3 : runCheck ⟨updateUnitCount (processCounter (search 1) (lookup 1) 1 [] 1 5).store 1 5 2, false, false⟩
          (some [(1, 0)]) (some (search 3)) (lookup 3) 3
        = { state := ⟨updateUnitCount (updateUnitCount (processCounter (search 1) (lookup 1) 1 [] 1 5).store 1 5 2) 1 0 3, false, false⟩,
            dispatched := [], records := [], events := [Event.writeCount 1 0],
            errorLogged := false } := by
      have hs2 : getUnitCount (updateUnitCount (processCounter (search 1) (lookup 1) 1 [] 1 5).store 1 5 2) 1 = some 5 :=
        getUnitCount_updateUnitCount _ 1 5 2
      have hnt : isTransition (getUnitCount (updateUnitCount (processCounter (search 1) (lookup 1) 1 [] 1 5).store 1 5 2) 1) 0 = false := by
        rw [hs2]; decide
      rw [runCheck_loop, runLoop_singleton, processCounter_noTrigger (search 3) (lookup 3) 3 hnt]
    have hlist : runCycles lookup search coldState seqCounters 0
        = [runCheck coldState (some []) (some (search 0)) (lookup 0) 0,
           runCheck ⟨[], false, false⟩ (some [(1, 5)]) (some (search 1)) (lookup 1) 1,
           runCheck ⟨(processCounter (search 1) (lookup 1) 1 [] 1 5).store, false, false⟩ (some [(1, 5)]) (some (search 2)) (lookup 2) 2,
           runCheck ⟨updateUnitCount (processCounter (search 1) (lookup 1) 1 [] 1 5).store 1 5 2, false, false⟩ (some [(1, 0)]) (some (search 3)) (lookup 3) 3,
           runCheck ⟨updateUnitCount (updateUnitCount (processCounter (search 1) (lookup 1) 1 [] 1 5).store 1 5 2) 1 0 3, false, false⟩ (some [(1, 5)]) (some (search 4)) (lookup 4) 4] := by
      simp only [seqCounters, runCycles]
      rw [h0]
      dsimp only
      rw [runCheck_loop [] [(1, 5)] (search 1) (lookup 1) 1, runLoop_singleton]
      dsimp only
      rw [h2]
      dsimp only
      rw [h3]
    refine ⟨?_, ?_, ?_, ?_, ?_⟩
    · unfold dispatchedAt
      rw [hlist]
      show (runCheck coldState (some []) (some (search 0)) (lookup 0) 0).dispatched = []
      rw [h0]
    · unfold dispatchedAt
      rw [hlist]
      show (runCheck ⟨(processCounter (search 1) (lookup 1) 1 [] 1 5).store, false, false⟩
        (some [(1, 5)]) (some (search 2)) (lookup 2) 2).dispatched = []
      rw [h2]
    · unfold dispatchedAt
      rw [hlist]
      show (runCheck ⟨updateUnitCount (processCounter (search 1) (lookup 1) 1 [] 1 5).store 1 5 2, false, false⟩
        (some [(1, 0)]) (some (search 3)) (lookup 3) 3).dispatched = []
      rw [h3]
    · unfold dispatchedAt
      rw [hlist]
      show ((runCheck ⟨[], false, false⟩ (some [(1, 5)]) (some (search 1)) (lookup 1) 1).dispatched).length ≤ 1
      rw [runCheck_loop, runLoop_singleton]
      exact processCounter_dispatched_len (search 1) (lookup 1) 1 [] 1 5
    · unfold dispatchedAt
      rw [hlist]
      show ((runCheck ⟨updateUnitCount (updateUnitCount (processCounter (search 1) (lookup 1) 1 [] 1 5).store 1 5 2) 1 0 3, false, false⟩
        (some [(1, 5)]) (some (search 4)) (lookup 4) 4).dispatched).length ≤ 1
      rw [runCheck_loop, runLoop_singleton]
      exact processCounter_dispatched_len (search 4) (lookup 4) 4
        (updateUnitCount (updateUnitCount (processCounter (search 1) (lookup 1) 1 [] 1 5).store 1 5 2) 1 0 3) 1 5
  · constructor
    · decide
    · decide
